import Mathlib

/-!
Shallow embedding of the route-configuration utilities in
`packages/router/src/utils/config.ts`: validation of a route tree,
normalization (`standardizeConfig`), outlet resolution (`getOutlet`,
`sortByMatchingOutlets`) and injector resolution
(`getClosestRouteInjector`), together with proofs of the specified
properties.

JavaScript truthiness is modelled explicitly: a string option is truthy
iff it is present and non-empty; object references (components,
injectors, arrays, functions) are truthy iff present.  Opaque function
fields of a `Route` (`matcher`, `loadChildren`) are modelled by their
presence bit, and `canActivate` likewise (the guard array's contents are
never inspected by this code, only its presence).
-/

namespace RouterConfig

/-- Opaque component reference.  `EmptyOutletComponent` is the built-in
empty-outlet placeholder from `../components/empty_outlet`; `cmp n` is any
other application component. -/
inductive Component : Type where
  | EmptyOutletComponent : Component
  | cmp : Nat → Component
deriving DecidableEq, Repr

/-- Opaque dependency-injection container reference (`EnvironmentInjector`
from `@angular/core`), identified by identity only. -/
structure EnvironmentInjector : Type where
  id : Nat
deriving DecidableEq, Repr

/-- `PRIMARY_OUTLET` from `../shared`. -/
def PRIMARY_OUTLET : String := "primary"

/-- A route-configuration node (`Route` from `../models`), restricted to the
fields this file reads.  `Option` marks a field that may be absent
(`undefined`); `Bool` fields model presence of an opaque function/array
value (present values of these kinds are always truthy in JS). -/
inductive Route : Type where
  | mk (path : Option String) (matcher : Bool) (component : Option Component)
       (redirectTo : Option String) (outlet : Option String)
       (canActivate : Bool) (children : Option (List Route))
       (loadChildren : Bool) (pathMatch : Option String)
       (loadedRoutes : Option (List Route))
       (loadedInjector : Option EnvironmentInjector)
       (injector : Option EnvironmentInjector) : Route

def Route.path : Route → Option String
  | .mk p _ _ _ _ _ _ _ _ _ _ _ => p

def Route.matcher : Route → Bool
  | .mk _ m _ _ _ _ _ _ _ _ _ _ => m

def Route.component : Route → Option Component
  | .mk _ _ c _ _ _ _ _ _ _ _ _ => c

def Route.redirectTo : Route → Option String
  | .mk _ _ _ r _ _ _ _ _ _ _ _ => r

def Route.outlet : Route → Option String
  | .mk _ _ _ _ o _ _ _ _ _ _ _ => o

def Route.canActivate : Route → Bool
  | .mk _ _ _ _ _ g _ _ _ _ _ _ => g

def Route.children : Route → Option (List Route)
  | .mk _ _ _ _ _ _ c _ _ _ _ _ => c

def Route.loadChildren : Route → Bool
  | .mk _ _ _ _ _ _ _ l _ _ _ _ => l

def Route.pathMatch : Route → Option String
  | .mk _ _ _ _ _ _ _ _ pm _ _ _ => pm

def Route.loadedRoutes : Route → Option (List Route)
  | .mk _ _ _ _ _ _ _ _ _ lr _ _ => lr

def Route.loadedInjector : Route → Option EnvironmentInjector
  | .mk _ _ _ _ _ _ _ _ _ _ li _ => li

def Route.injector : Route → Option EnvironmentInjector
  | .mk _ _ _ _ _ _ _ _ _ _ _ i => i

/-- JS truthiness of an optional string: present and non-empty. -/
def truthyStr : Option String → Bool
  | none => false
  | some s => !s.isEmpty

/-- `getOutlet`: returns `route.outlet || PRIMARY_OUTLET`. -/
def getOutlet (route : Route) : String :=
  match route.outlet with
  | some o => if o.isEmpty then PRIMARY_OUTLET else o
  | none => PRIMARY_OUTLET

/-- `sortByMatchingOutlets`: routes whose outlet matches `outletName`
first, then the rest (`routes.filter(match) ++ routes.filter(not match)`). -/
def sortByMatchingOutlets (routes : List Route) (outletName : String) : List Route :=
  routes.filter (fun r => getOutlet r == outletName) ++
    routes.filter (fun r => !(getOutlet r == outletName))

mutual

/-- `standardizeConfig`: copies the node, recursively standardizing
children, and sets `component` to `EmptyOutletComponent` when the copy has
no component, has (standardized) children or `loadChildren`, and a truthy
non-primary outlet. -/
def standardizeConfig : Route → Route
  | .mk path matcher component redirectTo outlet canActivate children
      loadChildren pathMatch loadedRoutes loadedInjector injector =>
    let children' : Option (List Route) :=
      match children with
      | some cs => some (standardizeList cs)
      | none => none
    let component' : Option Component :=
      if component.isNone && (children'.isSome || loadChildren) &&
          (truthyStr outlet && !(outlet == some PRIMARY_OUTLET)) then
        some Component.EmptyOutletComponent
      else
        component
    .mk path matcher component' redirectTo outlet canActivate children'
      loadChildren pathMatch loadedRoutes loadedInjector injector

/-- `r.children.map(standardizeConfig)` on a present children array. -/
def standardizeList : List Route → List Route
  | [] => []
  | r :: rs => standardizeConfig r :: standardizeList rs

end

/-- `getFullPath`: human-readable path for error messages, combining the
parent path and the node's own path with JS truthiness (`''` is falsy). -/
def getFullPath (parentPath : String) (currentRoute : Route) : String :=
  if parentPath.isEmpty && !truthyStr currentRoute.path then ""
  else if !parentPath.isEmpty && !truthyStr currentRoute.path then parentPath ++ "/"
  else if parentPath.isEmpty && truthyStr currentRoute.path then currentRoute.path.getD ""
  else parentPath ++ "/" ++ currentRoute.path.getD ""

/-- Check: a componentless route without children or `loadChildren`
cannot have a (truthy) named outlet set. -/
def checkNamedOutlet (fullPath : String) (route : Route) : Option String :=
  if route.component.isNone && route.children.isNone && !route.loadChildren &&
      (truthyStr route.outlet && !(route.outlet == some PRIMARY_OUTLET)) then
    some ("Invalid configuration of route '" ++ fullPath ++
      "': a componentless route without children or loadChildren cannot have a named outlet set")
  else none

/-- Check: `redirectTo` (truthy) and `children` cannot be used together. -/
def checkRedirectChildren (fullPath : String) (route : Route) : Option String :=
  if truthyStr route.redirectTo && route.children.isSome then
    some ("Invalid configuration of route '" ++ fullPath ++
      "': redirectTo and children cannot be used together")
  else none

/-- Check: `redirectTo` (truthy) and `loadChildren` cannot be used together. -/
def checkRedirectLoadChildren (fullPath : String) (route : Route) : Option String :=
  if truthyStr route.redirectTo && route.loadChildren then
    some ("Invalid configuration of route '" ++ fullPath ++
      "': redirectTo and loadChildren cannot be used together")
  else none

/-- Check: `children` and `loadChildren` cannot be used together. -/
def checkChildrenLoadChildren (fullPath : String) (route : Route) : Option String :=
  if route.children.isSome && route.loadChildren then
    some ("Invalid configuration of route '" ++ fullPath ++
      "': children and loadChildren cannot be used together")
  else none

/-- Check: `redirectTo` (truthy) and `component` cannot be used together. -/
def checkRedirectComponent (fullPath : String) (route : Route) : Option String :=
  if truthyStr route.redirectTo && route.component.isSome then
    some ("Invalid configuration of route '" ++ fullPath ++
      "': redirectTo and component cannot be used together")
  else none

/-- Check: `redirectTo` (truthy) and `canActivate` cannot be used together. -/
def checkRedirectCanActivate (fullPath : String) (route : Route) : Option String :=
  if truthyStr route.redirectTo && route.canActivate then
    some ("Invalid configuration of route '" ++ fullPath ++
      "': redirectTo and canActivate cannot be used together. Redirects happen before activation " ++
      "so canActivate will never be executed.")
  else none

/-- Check: `path` (truthy) and `matcher` cannot be used together. -/
def checkPathMatcher (fullPath : String) (route : Route) : Option String :=
  if truthyStr route.path && route.matcher then
    some ("Invalid configuration of route '" ++ fullPath ++
      "': path and matcher cannot be used together")
  else none

/-- Check: one of `component`, `redirectTo` (present), `children`,
`loadChildren` must be provided. -/
def checkMissingKind (fullPath : String) (route : Route) : Option String :=
  if route.redirectTo.isNone && route.component.isNone && route.children.isNone &&
      !route.loadChildren then
    some ("Invalid configuration of route '" ++ fullPath ++
      "'. One of the following must be provided: component, redirectTo, children or loadChildren")
  else none

/-- Check: a `path` or a `matcher` must be specified (presence, not
truthiness). -/
def checkNoPathNoMatcher (fullPath : String) (route : Route) : Option String :=
  if route.path.isNone && !route.matcher then
    some ("Invalid configuration of route '" ++ fullPath ++
      "': routes must have either a path or a matcher specified")
  else none

/-- Check: the path cannot start with a slash (`charAt(0) === '/'`). -/
def checkSlash (fullPath : String) (route : Route) : Option String :=
  if (match route.path with | some p => p.data.head? == some '/' | none => false) then
    some ("Invalid configuration of route '" ++ fullPath ++ "': path cannot start with a slash")
  else none

/-- Check: a redirect from the empty path must specify `pathMatch`. -/
def checkEmptyPathRedirect (fullPath : String) (route : Route) : Option String :=
  if route.path == some "" && route.redirectTo.isSome && route.pathMatch.isNone then
    some ("Invalid configuration of route '\x7bpath: \"" ++ fullPath ++ "\", redirectTo: \"" ++
      route.redirectTo.getD "" ++
      "\"\x7d': please provide 'pathMatch'. The default value of 'pathMatch' is 'prefix', but often the intent is to use 'full'.")
  else none

/-- The dev-mode checks of `validateNode`, in source order, producing the
first failing check's error message (a `ConfigError`), or `none` when the
node passes all checks — the source throws at the first failing check,
which `Option.orElse` chaining reproduces.  The `!route` and
`Array.isArray(route)` checks guard against ill-typed input and are
unrepresentable here.  The build-mode condition
`typeof ngDevMode === 'undefined' || ngDevMode` holds by default (the
symbol is undefined unless a build defines it), so the checks run. -/
def nodeError (fullPath : String) (route : Route) : Option String :=
  (checkNamedOutlet fullPath route).orElse fun _ =>
  (checkRedirectChildren fullPath route).orElse fun _ =>
  (checkRedirectLoadChildren fullPath route).orElse fun _ =>
  (checkChildrenLoadChildren fullPath route).orElse fun _ =>
  (checkRedirectComponent fullPath route).orElse fun _ =>
  (checkRedirectCanActivate fullPath route).orElse fun _ =>
  (checkPathMatcher fullPath route).orElse fun _ =>
  (checkMissingKind fullPath route).orElse fun _ =>
  (checkNoPathNoMatcher fullPath route).orElse fun _ =>
  (checkSlash fullPath route).orElse fun _ =>
  checkEmptyPathRedirect fullPath route

mutual

/-- `validateConfig`: validates every node of the forest in order,
propagating the first error (the source loop throws at the first invalid
node). -/
def validateConfig (config : List Route) (parentPath : String) : Except String Unit :=
  match config with
  | [] => .ok ()
  | route :: rest =>
    match validateNode route (getFullPath parentPath route) with
    | .error e => .error e
    | .ok _ => validateConfig rest parentPath

/-- `validateNode`: runs the dev-mode checks, then recurses into
`route.children` when present. -/
def validateNode : Route → String → Except String Unit
  | .mk p m c rt o g none lc pm lr li inj, fullPath =>
    match nodeError fullPath (.mk p m c rt o g none lc pm lr li inj) with
    | some e => .error e
    | none => .ok ()
  | .mk p m c rt o g (some cs) lc pm lr li inj, fullPath =>
    match nodeError fullPath (.mk p m c rt o g (some cs) lc pm lr li inj) with
    | some e => .error e
    | none => validateConfig cs fullPath

end

/-- A route snapshot (`ActivatedRouteSnapshot`), restricted to the two
fields this file reads: the originating `Route` (absent for e.g. the root)
and the parent snapshot link. -/
inductive ActivatedRouteSnapshot : Type where
  | mk (routeConfig : Option Route) (parent : Option ActivatedRouteSnapshot) :
      ActivatedRouteSnapshot

def ActivatedRouteSnapshot.routeConfig : ActivatedRouteSnapshot → Option Route
  | .mk rc _ => rc

def ActivatedRouteSnapshot.parent : ActivatedRouteSnapshot → Option ActivatedRouteSnapshot
  | .mk _ p => p

mutual

/-- The `for (let s = snapshot.parent; s; s = s.parent)` loop of
`getClosestRouteInjector`: on each ancestor, a lazy-loaded injector wins
over a static-providers injector; the walk stops at the first injector
found. -/
def closestInjectorFromParents : Option ActivatedRouteSnapshot → Option EnvironmentInjector
  | none => none
  | some s => closestInjectorFromSnap s

/-- One iteration of the ancestor walk, on a present snapshot. -/
def closestInjectorFromSnap : ActivatedRouteSnapshot → Option EnvironmentInjector
  | .mk rc parent =>
    match rc with
    | some route =>
      match route.loadedInjector with
      | some i => some i
      | none =>
        match route.injector with
        | some i => some i
        | none => closestInjectorFromParents parent
    | none => closestInjectorFromParents parent

end

/-- `getClosestRouteInjector`: `null` for an absent snapshot; the node's
own static-providers injector if present (skipping its lazy-loaded
injector); otherwise the walk up the parent chain. -/
def getClosestRouteInjector : Option ActivatedRouteSnapshot → Option EnvironmentInjector
  | none => none
  | some (.mk rc parent) =>
    match rc with
    | some route =>
      match route.injector with
      | some i => some i
      | none => closestInjectorFromParents parent
    | none => closestInjectorFromParents parent

/-- Membership of a node in a route forest: an element of the list, or
(recursively) a member of some element's `children`. -/
inductive MemForest : Route → List Route → Prop where
  | here {r : Route} {cfg : List Route} : r ∈ cfg → MemForest r cfg
  | child {r p : Route} {cfg cs : List Route} :
      p ∈ cfg → p.children = some cs → MemForest r cs → MemForest r cfg

mutual

/-- No snapshot in the parent chain stores any injector on its route. -/
def noStoredInjector : Option ActivatedRouteSnapshot → Prop
  | none => True
  | some s => noStoredInjectorSnap s

/-- The snapshot's own route (when present) stores no injector, and
neither does any ancestor. -/
def noStoredInjectorSnap : ActivatedRouteSnapshot → Prop
  | .mk rc parent =>
    (∀ route, rc = some route → route.loadedInjector = none ∧ route.injector = none) ∧
      noStoredInjector parent

end

mutual

theorem standardizeConfig_idem_aux (r : Route) :
    standardizeConfig (standardizeConfig r) = standardizeConfig r := by
  cases r with
  | mk path matcher component redirectTo outlet canActivate children loadChildren
      pathMatch loadedRoutes loadedInjector injector =>
    cases children with
    | none =>
      simp only [standardizeConfig, Option.isSome_none, Bool.false_or]
      by_cases h : (component.isNone && loadChildren &&
          (truthyStr outlet && !(outlet == some PRIMARY_OUTLET))) = true
      · simp [h]
      · simp [h]
    | some cs =>
      have ih : standardizeList (standardizeList cs) = standardizeList cs :=
        standardizeList_idem_aux cs
      simp only [standardizeConfig, Option.isSome_some, Bool.true_or, Bool.and_true, ih]
      by_cases h : (component.isNone &&
          (truthyStr outlet && !(outlet == some PRIMARY_OUTLET))) = true
      · simp [h]
      · simp [h]

theorem standardizeList_idem_aux (l : List Route) :
    standardizeList (standardizeList l) = standardizeList l := by
  cases l with
  | nil => rfl
  | cons r rs =>
    simp only [standardizeList]
    rw [standardizeConfig_idem_aux r, standardizeList_idem_aux rs]

end

/-- Claim C3: `standardizeConfig` is idempotent — applying it twice to any
route node yields the same result as applying it once. -/
theorem standardizeConfig_idem (r : Route) :
    standardizeConfig (standardizeConfig r) = standardizeConfig r :=
  standardizeConfig_idem_aux r

/-- Claim C10: `standardizeConfig` returns a fresh copy; mutation of the
input is unrepresentable in this pure embedding, and the copy semantics is
captured by these field equalities: every field of the result other than
`component` and `children` equals the corresponding field of the input. -/
theorem standardizeConfig_frame (r : Route) :
    (standardizeConfig r).path = r.path ∧
    (standardizeConfig r).matcher = r.matcher ∧
    (standardizeConfig r).redirectTo = r.redirectTo ∧
    (standardizeConfig r).outlet = r.outlet ∧
    (standardizeConfig r).canActivate = r.canActivate ∧
    (standardizeConfig r).loadChildren = r.loadChildren ∧
    (standardizeConfig r).pathMatch = r.pathMatch ∧
    (standardizeConfig r).loadedRoutes = r.loadedRoutes ∧
    (standardizeConfig r).loadedInjector = r.loadedInjector ∧
    (standardizeConfig r).injector = r.injector := by
  cases r with
  | mk path matcher component redirectTo outlet canActivate children loadChildren
      pathMatch loadedRoutes loadedInjector injector =>
    exact ⟨rfl, rfl, rfl, rfl, rfl, rfl, rfl, rfl, rfl, rfl⟩

theorem some_beq_some (a b : String) : (some a == some b) = (a == b) := rfl

/-- Claim C4: for a node with no component that has children or a
lazy-load descriptor, `standardizeConfig` sets the copy's component to the
empty-outlet placeholder exactly when the outlet is explicitly set to a
non-empty name other than `"primary"` (an explicitly empty outlet string
is falsy, hence treated as unset under the documented truthiness
semantics); with outlet unset or `"primary"`, the component stays unset. -/
theorem standardizeConfig_emptyOutlet (r : Route)
    (hc : r.component = none)
    (hch : r.children.isSome = true ∨ r.loadChildren = true) :
    (∀ o : String, r.outlet = some o → o ≠ "" → o ≠ PRIMARY_OUTLET →
      (standardizeConfig r).component = some Component.EmptyOutletComponent) ∧
    ((r.outlet = none ∨ r.outlet = some PRIMARY_OUTLET) →
      (standardizeConfig r).component = none) := by
  cases r with
  | mk path matcher component redirectTo outlet canActivate children loadChildren
      pathMatch loadedRoutes loadedInjector injector =>
    simp only [Route.component, Route.children, Route.loadChildren, Route.outlet] at hc hch ⊢
    subst hc
    constructor
    · intro o ho ho1 ho2
      subst ho
      have hoe : o.isEmpty = false := by
        rw [Bool.eq_false_iff]
        intro hemp
        exact ho1 ((String.isEmpty_iff o).mp hemp)
      have hbeq : (o == PRIMARY_OUTLET) = false := by
        rw [Bool.eq_false_iff]
        intro hb
        exact ho2 (by simpa using hb)
      cases children with
      | some cs =>
        simp [standardizeConfig, Route.component, truthyStr, some_beq_some, hoe, hbeq]
      | none =>
        rcases hch with h | h
        · simp at h
        · simp [standardizeConfig, Route.component, truthyStr, some_beq_some, hoe, hbeq, h]
    · intro ho
      rcases ho with rfl | rfl
      · cases children <;> simp [standardizeConfig, Route.component, truthyStr]
      · cases children <;> simp [standardizeConfig, Route.component, truthyStr, some_beq_some]

/-- A named-outlet componentless route with (empty) children, used as a
concrete witness input. -/
def auxChildRoute : Route :=
  .mk (some "a") false none none (some "aux") false (some []) false none none none none

theorem standardizeConfig_emptyOutlet_witness :
    (standardizeConfig auxChildRoute).component = some Component.EmptyOutletComponent :=
  (standardizeConfig_emptyOutlet auxChildRoute (by rfl) (Or.inl (by rfl))).1 "aux" rfl
    (by decide) (by decide)

/-- Claim C2: `sortByMatchingOutlets` is a stable partition: the result is
a permutation of the input consisting of the matching nodes (resolved
outlet equal to the requested name) followed by the non-matching ones,
each group an order-preserving subsequence of the input containing all
nodes of its kind. -/
theorem sortByMatchingOutlets_stable_partition (routes : List Route) (outletName : String) :
    (sortByMatchingOutlets routes outletName).Perm routes ∧
    ∃ yes no : List Route,
      sortByMatchingOutlets routes outletName = yes ++ no ∧
      yes.Sublist routes ∧ no.Sublist routes ∧
      (∀ r ∈ yes, getOutlet r = outletName) ∧
      (∀ r ∈ no, getOutlet r ≠ outletName) ∧
      (∀ r ∈ routes, getOutlet r = outletName → r ∈ yes) ∧
      (∀ r ∈ routes, getOutlet r ≠ outletName → r ∈ no) := by
  refine ⟨List.filter_append_perm _ routes,
    routes.filter (fun r => getOutlet r == outletName),
    routes.filter (fun r => !(getOutlet r == outletName)), rfl,
    List.filter_sublist _, List.filter_sublist _, ?_, ?_, ?_, ?_⟩
  · intro r hr
    exact beq_iff_eq.mp (@List.of_mem_filter _ (fun r => getOutlet r == outletName) _ _ hr)
  · intro r hr
    have h := @List.of_mem_filter _ (fun r => !(getOutlet r == outletName)) _ _ hr
    simpa using h
  · intro r hr h
    exact List.mem_filter_of_mem hr (beq_iff_eq.mpr h)
  · intro r hr h
    exact List.mem_filter_of_mem hr (by simpa using h)

def auxRouteA : Route :=
  .mk (some "a") false (some (.cmp 1)) none (some "aux") false none false none none none none

def primaryRouteB : Route :=
  .mk (some "b") false (some (.cmp 2)) none none false none false none none none none

theorem sortByMatchingOutlets_witness :
    (sortByMatchingOutlets [auxRouteA, primaryRouteB] "aux").Perm [auxRouteA, primaryRouteB] :=
  (sortByMatchingOutlets_stable_partition [auxRouteA, primaryRouteB] "aux").1

theorem isEmpty_false_of_ne {o : String} (h : o ≠ "") : o.isEmpty = false := by
  rw [Bool.eq_false_iff]
  intro hemp
  exact h ((String.isEmpty_iff o).mp hemp)

theorem beq_false_of_ne {o p : String} (h : o ≠ p) : (o == p) = false := by
  rw [Bool.eq_false_iff]
  intro hb
  exact h (beq_iff_eq.mp hb)

theorem orElse_none_iff (a : Option String) (b : Unit → Option String) :
    a.orElse b = none ↔ a = none ∧ b () = none := by
  cases a <;> simp [Option.orElse]

theorem if_some_none_iff {c : Bool} {m : String} :
    (if c = true then some m else none) = none ↔ c = false := by
  cases c <;> simp

/-- A node passes the dev-mode checks (for any message path) iff each of
the eleven check conditions is false. -/
theorem nodeError_none_iff (fp : String) (route : Route) :
    nodeError fp route = none ↔
      (route.component.isNone && route.children.isNone && !route.loadChildren &&
        (truthyStr route.outlet && !(route.outlet == some PRIMARY_OUTLET))) = false ∧
      (truthyStr route.redirectTo && route.children.isSome) = false ∧
      (truthyStr route.redirectTo && route.loadChildren) = false ∧
      (route.children.isSome && route.loadChildren) = false ∧
      (truthyStr route.redirectTo && route.component.isSome) = false ∧
      (truthyStr route.redirectTo && route.canActivate) = false ∧
      (truthyStr route.path && route.matcher) = false ∧
      (route.redirectTo.isNone && route.component.isNone && route.children.isNone &&
        !route.loadChildren) = false ∧
      (route.path.isNone && !route.matcher) = false ∧
      (match route.path with | some p => p.data.head? == some '/' | none => false) = false ∧
      (route.path == some "" && route.redirectTo.isSome && route.pathMatch.isNone) = false := by
  simp only [nodeError, orElse_none_iff, checkNamedOutlet, checkRedirectChildren,
    checkRedirectLoadChildren, checkChildrenLoadChildren, checkRedirectComponent,
    checkRedirectCanActivate, checkPathMatcher, checkMissingKind, checkNoPathNoMatcher,
    checkSlash, checkEmptyPathRedirect, if_some_none_iff]

/-- Passing the dev-mode checks does not depend on the message path. -/
theorem nodeError_none_indep {route : Route} {fp fp' : String}
    (h : nodeError fp route = none) : nodeError fp' route = none := by
  rw [nodeError_none_iff] at h ⊢
  exact h

/-- A successful `validateNode` run means the node passed its checks and
its children (when present) validated successfully. -/
theorem validateNode_ok {route : Route} {fp : String}
    (h : validateNode route fp = .ok ()) :
    nodeError fp route = none ∧
      ∀ cs, route.children = some cs → validateConfig cs fp = .ok () := by
  cases route with
  | mk p m c rt o g children lc pm lr li inj =>
    cases children with
    | none =>
      cases he : nodeError fp (.mk p m c rt o g none lc pm lr li inj) with
      | some e =>
        have hv : validateNode (.mk p m c rt o g none lc pm lr li inj) fp = .error e := by
          simp only [validateNode, he]
        rw [hv] at h
        exact Except.noConfusion h
      | none =>
        refine ⟨rfl, ?_⟩
        intro cs hcs
        simp only [Route.children] at hcs
        exact Option.noConfusion hcs
    | some cs' =>
      cases he : nodeError fp (.mk p m c rt o g (some cs') lc pm lr li inj) with
      | some e =>
        have hv : validateNode (.mk p m c rt o g (some cs') lc pm lr li inj) fp = .error e := by
          simp only [validateNode, he]
        rw [hv] at h
        exact Except.noConfusion h
      | none =>
        refine ⟨rfl, ?_⟩
        intro cs hcs
        simp only [Route.children] at hcs
        injection hcs with hcs2
        subst hcs2
        have hv : validateNode (.mk p m c rt o g (some cs') lc pm lr li inj) fp =
            validateConfig cs' fp := by
          simp only [validateNode, he]
        rw [hv] at h
        exact h

/-- A successful `validateConfig` run means every element's `validateNode`
run succeeded. -/
theorem validateConfig_ok_elem : ∀ {cfg : List Route} {pp : String},
    validateConfig cfg pp = .ok () → ∀ r ∈ cfg, validateNode r (getFullPath pp r) = .ok () := by
  intro cfg
  induction cfg with
  | nil => intro pp h r hr; simp at hr
  | cons a rest ih =>
    intro pp h r hr
    cases hv : validateNode a (getFullPath pp a) with
    | error e =>
      simp only [validateConfig, hv] at h
      exact Except.noConfusion h
    | ok u =>
      cases u
      simp only [validateConfig, hv] at h
      rcases List.mem_cons.mp hr with rfl | hr2
      · exact hv
      · exact ih h r hr2

/-- Soundness of validation over the whole forest: when `validateConfig`
succeeds, every node reachable through `children` passes all checks. -/
theorem mem_forest_nodeError {r : Route} {cfg : List Route} (hm : MemForest r cfg) :
    ∀ pp : String, validateConfig cfg pp = .ok () → ∀ fp : String, nodeError fp r = none := by
  induction hm with
  | here hr =>
    intro pp h fp
    have hv := validateConfig_ok_elem h _ hr
    have hn := (validateNode_ok hv).1
    exact nodeError_none_indep hn
  | child hp hcs hmem ih =>
    intro pp h fp
    have hv := validateConfig_ok_elem h _ hp
    have hrec := (validateNode_ok hv).2 _ hcs
    exact ih _ hrec fp

/-- Claim C6: a route node whose outlet is a (non-empty) name other than
`"primary"` and which has no component, no children and no lazy-load
descriptor makes validation of any forest containing it fail with a
ConfigError. -/
theorem validateConfig_namedOutlet_componentless {r : Route} {cfg : List Route} {pp : String}
    {o : String} (hm : MemForest r cfg) (ho : r.outlet = some o) (ho1 : o ≠ "")
    (ho2 : o ≠ PRIMARY_OUTLET) (hc : r.component = none) (hch : r.children = none)
    (hl : r.loadChildren = false) :
    ∃ e, validateConfig cfg pp = .error e := by
  cases hok : validateConfig cfg pp with
  | error e => exact ⟨e, rfl⟩
  | ok u =>
    cases u
    exfalso
    have hn := mem_forest_nodeError hm pp hok ""
    obtain ⟨h1, -, -, -, -, -, -, -, -, -, -⟩ := (nodeError_none_iff "" r).mp hn
    rw [ho, hc, hch, hl] at h1
    simp [truthyStr, some_beq_some, isEmpty_false_of_ne ho1, beq_false_of_ne ho2] at h1

def namedOutletBareRoute : Route :=
  .mk (some "x") false none none (some "aux") false none false none none none none

theorem validateConfig_namedOutlet_witness :
    (validateConfig [namedOutletBareRoute] "").isOk = false := by
  obtain ⟨e, he⟩ := @validateConfig_namedOutlet_componentless namedOutletBareRoute
    [namedOutletBareRoute] "" "aux" (.here (.head _)) rfl (by decide) (by decide) rfl rfl rfl
  rw [he]
  rfl

/-- A route with the empty-string path, a matcher and a component: it
specifies both a path and a matcher, yet validation succeeds, because the
path-and-matcher check tests JS truthiness of the path and `''` is falsy. -/
def emptyPathMatcherRoute : Route :=
  .mk (some "") true (some (.cmp 0)) none none false none false none none none none

/-- Claim C5 counterexample: a node specifying both a path (the empty
string) and a matcher passes `validateConfig`, so validation does not fail
for every node specifying both. -/
theorem validateConfig_path_matcher_counterexample :
    emptyPathMatcherRoute.path = some "" ∧ emptyPathMatcherRoute.matcher = true ∧
    validateConfig [emptyPathMatcherRoute] "" = .ok () :=
  ⟨rfl, rfl, rfl⟩

/-- Claim C5 (amended): for every node specifying a non-empty path
together with a matcher, and for every node specifying neither a path nor
a matcher, validation of any forest containing the node fails with a
ConfigError.  (An empty-string path is specified but falsy, so it escapes
the path-and-matcher check.) -/
theorem validateConfig_path_matcher {r : Route} {cfg : List Route} {pp : String}
    (hm : MemForest r cfg)
    (h : (∃ p, r.path = some p ∧ p ≠ "" ∧ r.matcher = true) ∨
      (r.path = none ∧ r.matcher = false)) :
    ∃ e, validateConfig cfg pp = .error e := by
  cases hok : validateConfig cfg pp with
  | error e => exact ⟨e, rfl⟩
  | ok u =>
    cases u
    exfalso
    have hn := mem_forest_nodeError hm pp hok ""
    obtain ⟨-, -, -, -, -, -, h7, -, h9, -, -⟩ := (nodeError_none_iff "" r).mp hn
    rcases h with ⟨p, hp, hne, hmt⟩ | ⟨hp, hmt⟩
    · rw [hp, hmt] at h7
      simp [truthyStr, isEmpty_false_of_ne hne] at h7
    · rw [hp, hmt] at h9
      simp at h9

def pathAndMatcherRoute : Route :=
  .mk (some "a") true (some (.cmp 0)) none none false none false none none none none

theorem validateConfig_path_matcher_witness :
    (validateConfig [pathAndMatcherRoute] "").isOk = false := by
  obtain ⟨e, he⟩ := @validateConfig_path_matcher pathAndMatcherRoute [pathAndMatcherRoute] ""
    (.here (.head _)) (Or.inl ⟨"a", rfl, by decide, rfl⟩)
  rw [he]
  rfl

/-- A route with an empty-string redirect target and children: `redirectTo`
is set together with `children`, yet validation succeeds, because the
redirect-and-children check tests JS truthiness of the redirect target and
`''` is falsy. -/
def emptyRedirectChildrenRoute : Route :=
  .mk (some "x") false none (some "") none false (some []) false none none none none

/-- Claim C7 counterexample: a node with `redirectTo` set (to the empty
string) together with `children` passes `validateConfig`, so validation
does not fail for every such combination. -/
theorem validateConfig_redirect_counterexample :
    emptyRedirectChildrenRoute.redirectTo = some "" ∧
    emptyRedirectChildrenRoute.children = some [] ∧
    validateConfig [emptyRedirectChildrenRoute] "" = .ok () :=
  ⟨rfl, rfl, rfl⟩

/-- Claim C7 (amended): for every node with a non-empty `redirectTo` set
together with `children`, a lazy-load descriptor, a `component`, or
activation guards, validation of any forest containing the node fails with
a ConfigError.  (An empty-string redirect target is set but falsy, so it
escapes these checks.) -/
theorem validateConfig_redirect_conflicts {r : Route} {cfg : List Route} {pp : String}
    {s : String} (hm : MemForest r cfg) (hr : r.redirectTo = some s) (hs : s ≠ "")
    (h : r.children.isSome = true ∨ r.loadChildren = true ∨
      r.component.isSome = true ∨ r.canActivate = true) :
    ∃ e, validateConfig cfg pp = .error e := by
  cases hok : validateConfig cfg pp with
  | error e => exact ⟨e, rfl⟩
  | ok u =>
    cases u
    exfalso
    have hn := mem_forest_nodeError hm pp hok ""
    obtain ⟨-, h2, h3, -, h5, h6, -, -, -, -, -⟩ := (nodeError_none_iff "" r).mp hn
    have ht : truthyStr r.redirectTo = true := by
      rw [hr]
      simp [truthyStr, isEmpty_false_of_ne hs]
    rcases h with hc | hc | hc | hc
    · rw [ht, hc] at h2
      simp at h2
    · rw [ht, hc] at h3
      simp at h3
    · rw [ht, hc] at h5
      simp at h5
    · rw [ht, hc] at h6
      simp at h6

def redirectChildrenRoute : Route :=
  .mk (some "x") false none (some "/y") none false (some []) false none none none none

theorem validateConfig_redirect_conflicts_witness :
    (validateConfig [redirectChildrenRoute] "").isOk = false := by
  obtain ⟨e, he⟩ := @validateConfig_redirect_conflicts redirectChildrenRoute
    [redirectChildrenRoute] "" "/y" (.here (.head _)) rfl (by decide) (Or.inl rfl)
  rw [he]
  rfl

/-- An empty-path redirect that declares `pathMatch: 'full'`; it passes
validation. -/
def emptyPathRedirectFullRoute : Route :=
  .mk (some "") false none (some "/dashboard") none false none false (some "full") none none none

/-- Claim C8: a node with `redirectTo` set and the empty-string path fails
validation (of any forest containing it) when `pathMatch` is unspecified;
the same shape of node with `pathMatch: 'full'` passes validation, so the
empty-path-redirect check does not fire on it. -/
theorem validateConfig_emptyPath_redirect_pathMatch :
    (∀ (r : Route) (cfg : List Route) (pp : String), MemForest r cfg → r.path = some "" →
      r.redirectTo.isSome = true → r.pathMatch = none →
      ∃ e, validateConfig cfg pp = .error e) ∧
    validateConfig [emptyPathRedirectFullRoute] "" = .ok () := by
  constructor
  · intro r cfg pp hm hp hr hpm
    cases hok : validateConfig cfg pp with
    | error e => exact ⟨e, rfl⟩
    | ok u =>
      cases u
      exfalso
      have hn := mem_forest_nodeError hm pp hok ""
      obtain ⟨-, -, -, -, -, -, -, -, -, -, h11⟩ := (nodeError_none_iff "" r).mp hn
      rw [hp, hr, hpm] at h11
      simp at h11
  · rfl

def emptyPathRedirectNoMatchRoute : Route :=
  .mk (some "") false none (some "/dashboard") none false none false none none none none

theorem validateConfig_emptyPath_redirect_witness :
    (validateConfig [emptyPathRedirectNoMatchRoute] "").isOk = false := by
  obtain ⟨e, he⟩ := validateConfig_emptyPath_redirect_pathMatch.1
    emptyPathRedirectNoMatchRoute [emptyPathRedirectNoMatchRoute] ""
    (.here (.head _)) rfl rfl rfl
  rw [he]
  rfl

/-- Claim C1: resolving from a snapshot whose own route carries a static
(`_injector`) injector returns that injector, even when the same route
also carries a lazy-loaded (`_loadedInjector`) injector; resolving from a
child snapshot whose own route has no static injector walks to the parent,
where the lazy-loaded injector takes precedence over the static one — the
walk returns the first injector found on the nearest such ancestor. -/
theorem getClosestRouteInjector_static_lazy (route : Route) (i li : EnvironmentInjector)
    (par gp : Option ActivatedRouteSnapshot) (childRc : Option Route)
    (hi : route.injector = some i) (hli : route.loadedInjector = some li) :
    getClosestRouteInjector (some (.mk (some route) par)) = some i ∧
    ((∀ cr, childRc = some cr → cr.injector = none) →
      getClosestRouteInjector (some (.mk childRc (some (.mk (some route) gp)))) = some li) := by
  constructor
  · simp [getClosestRouteInjector, ActivatedRouteSnapshot.routeConfig,
      ActivatedRouteSnapshot.parent, hi]
  · intro hchild
    cases childRc with
    | none =>
      simp [getClosestRouteInjector, closestInjectorFromParents, closestInjectorFromSnap, hli]
    | some cr =>
      have hcr := hchild cr rfl
      simp [getClosestRouteInjector, closestInjectorFromParents, closestInjectorFromSnap,
        hcr, hli]

/-- A route carrying both a static-providers injector (id 1) and a
lazy-loaded injector (id 2). -/
def bothInjectorsRoute : Route :=
  .mk (some "a") false none none none false none false none none (some ⟨2⟩) (some ⟨1⟩)

theorem getClosestRouteInjector_witness :
    getClosestRouteInjector (some (.mk (some bothInjectorsRoute) none)) = some ⟨1⟩ ∧
    getClosestRouteInjector
      (some (.mk none (some (.mk (some bothInjectorsRoute) none)))) = some ⟨2⟩ :=
  ⟨(getClosestRouteInjector_static_lazy bothInjectorsRoute ⟨1⟩ ⟨2⟩ none none none rfl rfl).1,
   (getClosestRouteInjector_static_lazy bothInjectorsRoute ⟨1⟩ ⟨2⟩ none none none rfl rfl).2
     (fun _ h => Option.noConfusion h)⟩

theorem noStoredInjector_some (rc : Option Route) (parent : Option ActivatedRouteSnapshot) :
    noStoredInjector (some (.mk rc parent)) ↔
      (∀ route, rc = some route → route.loadedInjector = none ∧ route.injector = none) ∧
      noStoredInjector parent := Iff.rfl

mutual

theorem closestInjectorFromParents_none : ∀ (s : Option ActivatedRouteSnapshot),
    noStoredInjector s → closestInjectorFromParents s = none
  | none, _ => rfl
  | some snap, h => closestInjectorFromSnap_none snap h

theorem closestInjectorFromSnap_none : ∀ (s : ActivatedRouteSnapshot),
    noStoredInjector (some s) → closestInjectorFromSnap s = none
  | .mk rc parent, h => by
    obtain ⟨hrc, hp⟩ := (noStoredInjector_some rc parent).mp h
    cases rc with
    | none => exact closestInjectorFromParents_none parent hp
    | some route =>
      obtain ⟨hli, hi⟩ := hrc route rfl
      have hrest := closestInjectorFromParents_none parent hp
      simp [closestInjectorFromSnap, hli, hi, hrest]

end

/-- Claim C9: the helper functions are total by construction in this
embedding (every definition above is a total function, with no partiality
or exceptions); in particular an unset outlet resolves to `"primary"`, an
absent snapshot yields "no injector found" (`none`), and exhausting the
parent chain without finding a stored injector also yields `none` rather
than failing. -/
theorem config_utils_total (r : Route) (s : Option ActivatedRouteSnapshot)
    (ho : r.outlet = none) (hs : noStoredInjector s) :
    getOutlet r = PRIMARY_OUTLET ∧
    getClosestRouteInjector none = none ∧
    getClosestRouteInjector s = none := by
  refine ⟨by simp [getOutlet, ho], rfl, ?_⟩
  cases s with
  | none => rfl
  | some snap =>
    cases snap with
    | mk rc parent =>
      obtain ⟨hrc, hp⟩ := (noStoredInjector_some rc parent).mp hs
      cases rc with
      | none => exact closestInjectorFromParents_none parent hp
      | some route =>
        obtain ⟨hli, hi⟩ := hrc route rfl
        have hrest := closestInjectorFromParents_none parent hp
        simp [getClosestRouteInjector, hi, hrest]

/-- A plain route storing no injector, with no outlet set. -/
def plainRoute : Route :=
  .mk (some "p") false (some (.cmp 9)) none none false none false none none none none

theorem config_utils_total_witness :
    getOutlet plainRoute = PRIMARY_OUTLET ∧
    getClosestRouteInjector none = none ∧
    getClosestRouteInjector (some (.mk (some plainRoute) none)) = none :=
  config_utils_total plainRoute (some (.mk (some plainRoute) none)) rfl
    ((noStoredInjector_some (some plainRoute) none).mpr
      ⟨fun route h => by cases h; exact ⟨rfl, rfl⟩, trivial⟩)

end RouterConfig
